import Mathlib

/-!
# Trainova Windows runner: embedding and verification

Shallow embedding of `windows/runner/utils.cpp`, `windows/runner/flutter_window.cpp`
and `windows/runner/main.cpp`.

Conventions of the embedding:

* every call the code makes into the OS, the C runtime, the Flutter embedder or the
  `Win32Window` base class is recorded as an event of a trace, and the outcome of the
  call is read from an environment record, so that the theorems quantify over every
  outcome the collaborator can produce;
* pointers are `Option`s (`none` is `nullptr`); calling a method through a null
  pointer is a fault (`Except.error`);
* `int` and `unsigned int` are `Int`/`Nat` with explicit wrapping at 32 bits where the
  code converts between them (`target_length`, `input_length`, `cbMultiByte`); the
  client-area and screen arithmetic is done on `Int` without wrapping;
* not modelled: memory exhaustion (`std::bad_alloc` of `resize`), what the embedder and
  the base class do inside the recorded calls, and the destructors that run when
  `wWinMain` returns.
-/

namespace Trainova

/-! ## Machine integers -/

/-- Conversion of an integer value to a 32-bit `unsigned int` (reduction modulo 2^32). -/
def toUInt32 (n : Int) : Nat := (n % 4294967296).toNat

/-- Conversion of an integer value to a 32-bit `int` (two's complement wrap). -/
def toInt32 (n : Int) : Int := (n + 2147483648) % 4294967296 - 2147483648

/-! ## utils.cpp : CreateAndAttachConsole -/

/-- Outcomes of the build configuration and of the OS / C runtime calls that one run
of `CreateAndAttachConsole` can make. -/
structure ConsoleEnv where
  /-- Whether `_DEBUG` is defined for the build. -/
  debugBuild : Bool
  /-- Result of `::IsDebuggerPresent()`. -/
  isDebuggerPresent : Bool
  /-- Result of `::AttachConsole(ATTACH_PARENT_PROCESS)`. -/
  attachConsole : Bool
  /-- Result of `::AllocConsole()`. -/
  allocConsole : Bool
  /-- Whether `freopen_s(&unused, "CONOUT$", "w", stdout) == 0`. -/
  stdoutRedirected : Bool
  /-- Whether `freopen_s(&unused, "CONOUT$", "w", stderr) == 0`. -/
  stderrRedirected : Bool
deriving DecidableEq, Repr

/-- Calls made by `CreateAndAttachConsole`. -/
inductive ConsoleEvent where
  | IsDebuggerPresent
  | AttachConsole
  | AllocConsole
  | freopenStdout
  | freopenStderr
  | dup2 (fd : Nat)
  | syncStreams
  | FlutterDesktopResyncOutputStreams
deriving DecidableEq, Repr

/-- The block executed after a successful `AllocConsole`: the two redirections and, if
at least one succeeded, the descriptor duplication and stream resynchronisation. -/
def redirectStreams (env : ConsoleEnv) : List ConsoleEvent :=
  [ConsoleEvent.freopenStdout, ConsoleEvent.freopenStderr] ++
    (if env.stdoutRedirected || env.stderrRedirected then
      (if env.stdoutRedirected then [ConsoleEvent.dup2 1] else []) ++
      (if env.stderrRedirected then [ConsoleEvent.dup2 2] else []) ++
      [ConsoleEvent.syncStreams, ConsoleEvent.FlutterDesktopResyncOutputStreams]
    else [])

/-- Embedding of `CreateAndAttachConsole()`: takes the value of the static flag `g_console_created`
and returns its new value together with the calls made. -/
def CreateAndAttachConsole (env : ConsoleEnv) (g_console_created : Bool) :
    Bool × List ConsoleEvent :=
  if g_console_created then
    (g_console_created, [])
  else
    let should_create_console : Bool :=
      if env.debugBuild then true else env.isDebuggerPresent
    let probe : List ConsoleEvent :=
      if env.debugBuild then [] else [ConsoleEvent.IsDebuggerPresent]
    if !should_create_console then
      (true, probe)
    else if env.attachConsole then
      (true, probe ++ [ConsoleEvent.AttachConsole])
    else if env.allocConsole then
      (true, probe ++ [ConsoleEvent.AttachConsole, ConsoleEvent.AllocConsole] ++
        redirectStreams env)
    else
      (g_console_created, probe ++ [ConsoleEvent.AttachConsole, ConsoleEvent.AllocConsole])

/-- Number of `AttachConsole` and `AllocConsole` calls in a trace. -/
def consoleAttempts (t : List ConsoleEvent) : Nat :=
  t.count ConsoleEvent.AttachConsole + t.count ConsoleEvent.AllocConsole

/-! ## The OS conversion routine used by Utf8FromUtf16

`WideCharToMultiByte` is an OS service; it is modelled after its documented contract
for the only flag combination the code uses (`CP_UTF8`, `WC_ERR_INVALID_CHARS`, no
default character). -/

/-- UTF-8 encoding of one Unicode scalar value. -/
def utf8EncodeScalar (c : Nat) : List Nat :=
  if c < 128 then [c]
  else if c < 2048 then [192 + c / 64, 128 + c % 64]
  else if c < 65536 then [224 + c / 4096, 128 + c / 64 % 64, 128 + c % 64]
  else [240 + c / 262144, 128 + c / 4096 % 64, 128 + c / 64 % 64, 128 + c % 64]

/-- Canonical UTF-8 encoding of a sequence of Unicode scalar values. -/
def utf8Encode : List Nat → List Nat
  | [] => []
  | c :: s => utf8EncodeScalar c ++ utf8Encode s

/-- Strict UTF-16 decoding: `none` as soon as a code unit is not part of a well-formed
sequence (a lone surrogate, or a value that is not a 16-bit unit). -/
def utf16Decode : List Nat → Option (List Nat)
  | [] => some []
  | [u] =>
    if u < 55296 ∨ (57344 ≤ u ∧ u < 65536) then some [u] else none
  | u :: l :: rest =>
    if u < 55296 ∨ (57344 ≤ u ∧ u < 65536) then
      (utf16Decode (l :: rest)).map (fun s => u :: s)
    else if 55296 ≤ u ∧ u < 56320 ∧ 56320 ≤ l ∧ l < 57344 then
      (utf16Decode rest).map (fun s => (65536 + (u - 55296) * 1024 + (l - 56320)) :: s)
    else none

/-- UTF-16 encoding of one Unicode scalar value. -/
def utf16EncodeScalar (c : Nat) : List Nat :=
  if c < 65536 then [c] else [55296 + (c - 65536) / 1024, 56320 + (c - 65536) % 1024]

/-- UTF-16 encoding of a sequence of Unicode scalar values. -/
def utf16Encode : List Nat → List Nat
  | [] => []
  | c :: s => utf16EncodeScalar c ++ utf16Encode s

/-- A Unicode scalar value: at most U+10FFFF and not a surrogate. -/
def isScalar (c : Nat) : Prop := c < 55296 ∨ (57344 ≤ c ∧ c < 1114112)

/-- The wide characters of a null-terminated string: the units of the buffer before the
first zero unit. -/
def cstr (buffer : List Nat) : List Nat := buffer.takeWhile (fun u => u != 0)

/-- Embedding of `wcslen`. -/
def wcslen (buffer : List Nat) : Nat := (cstr buffer).length

/-- The wide characters a call of `WideCharToMultiByte` processes: with
`cchWideChar = -1` the string up to and including its terminating null, with a positive
`cchWideChar` that many units; any other value is an invalid parameter. -/
def conversionInput (str : List Nat) (cchWideChar : Int) : Option (List Nat) :=
  if cchWideChar = -1 then some (cstr str ++ [0])
  else if 0 < cchWideChar then some ((cstr str ++ [0]).take cchWideChar.toNat)
  else none

/-- Model of the OS call `WideCharToMultiByte(CP_UTF8, WC_ERR_INVALID_CHARS, str,
cchWideChar, buf, cbMultiByte, nullptr, nullptr)`: returns the function's return value
and the bytes written to `buf`.

* an invalid `cchWideChar` or invalid UTF-16 makes the call fail (return value 0);
* `cbMultiByte = 0` only queries the number of bytes required;
* a buffer that is too small (or a negative size) makes the call fail;
* a byte count that does not fit the `int` return type makes the call fail. -/
def WideCharToMultiByte (str : List Nat) (cchWideChar : Int) (cbMultiByte : Int) :
    Int × List Nat :=
  match (conversionInput str cchWideChar).bind utf16Decode with
  | none => (0, [])
  | some s =>
    if 2147483648 ≤ (utf8Encode s).length then (0, [])
    else if cbMultiByte = 0 then (((utf8Encode s).length : Int), [])
    else if cbMultiByte < ((utf8Encode s).length : Int) then (0, [])
    else (((utf8Encode s).length : Int), utf8Encode s)

/-! ## utils.cpp : Utf8FromUtf16 -/

/-- Steps of `Utf8FromUtf16` after the null check. -/
inductive ConvEvent where
  | lengthQuery
  | wcslen
  | resize (n : Nat)
  | convert (cchWideChar : Int) (cbMultiByte : Int)
deriving DecidableEq, Repr

/-- Embedding of `Utf8FromUtf16(utf16_string)`. `max_size` is `std::string::max_size()`, a constant
of the C++ library that the sources do not fix. Returns the bytes of the resulting
`std::string` and the steps taken. -/
def Utf8FromUtf16 (max_size : Nat) (utf16_string : Option (List Nat)) :
    List Nat × List ConvEvent :=
  match utf16_string with
  | none => ([], [])
  | some w =>
    let target_length : Nat := toUInt32 ((WideCharToMultiByte w (-1) 0).1 - 1)
    let input_length : Int := toInt32 (wcslen w)
    if target_length = 0 ∨ target_length > max_size then
      ([], [ConvEvent.lengthQuery, ConvEvent.wcslen])
    else
      let converted := WideCharToMultiByte w input_length (toInt32 target_length)
      let steps := [ConvEvent.lengthQuery, ConvEvent.wcslen, ConvEvent.resize target_length,
        ConvEvent.convert input_length (toInt32 target_length)]
      if converted.1 = 0 then
        ([], steps)
      else
        (converted.2 ++ (List.replicate target_length 0).drop converted.2.length, steps)

/-- The value of `std::string::max_size()` on a 64-bit target (2^63 - 1). -/
def maxSize64 : Nat := 9223372036854775807

/-- The value of `std::string::max_size()` on a 32-bit target (2^31 - 1). -/
def maxSize32 : Nat := 2147483647

/-! ## utils.cpp : GetCommandLineArguments -/

/-- Calls made by `GetCommandLineArguments` besides the conversions. -/
inductive ArgEvent where
  | GetCommandLineW
  | CommandLineToArgvW
  | LocalFree
deriving DecidableEq, Repr

/-- The loop `for (int i = 1; i < argc; i++) push_back(Utf8FromUtf16(argv[i]))`, started
at index `i` with the vector built so far. -/
def pushArguments (max_size : Nat) (argv : List (List Nat)) (argc : Nat) (i : Nat)
    (command_line_arguments : List (List Nat)) : List (List Nat) :=
  if i < argc then
    pushArguments max_size argv argc (i + 1)
      (command_line_arguments ++ [(Utf8FromUtf16 max_size argv[i]?).1])
  else command_line_arguments
termination_by argc - i

/-- Embedding of `GetCommandLineArguments()`. The argument is the result of
`::CommandLineToArgvW(::GetCommandLineW(), &argc)`: `none` for a null `argv`, otherwise
the `argc` tokens. Returns the vector and the calls made. -/
def GetCommandLineArguments (max_size : Nat) (tokenized : Option (List (List Nat))) :
    List (List Nat) × List ArgEvent :=
  match tokenized with
  | none => ([], [ArgEvent.GetCommandLineW, ArgEvent.CommandLineToArgvW])
  | some argv =>
    (pushArguments max_size argv argv.length 1 [],
      [ArgEvent.GetCommandLineW, ArgEvent.CommandLineToArgvW, ArgEvent.LocalFree])

/-! ## flutter_window.cpp -/

/-- A window handle. -/
abbrev HWND := Nat

/-- The result type of a window procedure. -/
abbrev LRESULT := Int

/-- The Win32 `RECT`. -/
structure RECT where
  left : Int
  top : Int
  right : Int
  bottom : Int
deriving DecidableEq, Repr

/-- The object `flutter_controller_->view()` points to. -/
structure FlutterView where
  /-- Result of `GetNativeWindow()`. -/
  nativeWindow : HWND
deriving DecidableEq, Repr

/-- The object `flutter_controller_->engine()` points to. -/
structure FlutterEngine where
  id : Nat
deriving DecidableEq, Repr

/-- A `flutter::FlutterViewController`, as far as the runner observes it: the two
accessors, each of which may return `nullptr`. -/
structure FlutterViewController where
  engine : Option FlutterEngine
  view : Option FlutterView
deriving DecidableEq, Repr

/-- The arguments of a window procedure. -/
structure Message where
  hwnd : HWND
  message : Nat
  wparam : Nat
  lparam : Int
deriving DecidableEq, Repr

/-- The message identifier `WM_FONTCHANGE`. -/
def WM_FONTCHANGE : Nat := 29

/-- The closures the runner passes to `SetNextFrameCallback`: the only one in the
sources is the lambda of `OnCreate`, whose body is `this->Show();`. -/
inductive Callback where
  | showWindow
deriving DecidableEq, Repr

/-- Calls made by the member functions of `FlutterWindow`. -/
inductive Event where
  | Win32Window_OnCreate
  | GetClientArea
  | FlutterViewController_new (width : Int) (height : Int)
  | RegisterPlugins (engine : FlutterEngine)
  | SetChildContent (content : HWND)
  | SetNextFrameCallback (engine : FlutterEngine) (callback : Option Callback)
  | ForceRedraw
  | Show
  | ReleaseController
  | Win32Window_OnDestroy
  | HandleTopLevelWindowProc (m : Message)
  | ReloadSystemFonts (engine : FlutterEngine)
  | Win32Window_MessageHandler (m : Message)
  | CreateWindow
deriving DecidableEq, Repr

/-- What invoking a callback does. -/
def Callback.invoke : Callback → List Event
  | Callback.showWindow => [Event.Show]

/-- Outcomes of the calls `FlutterWindow` makes into `Win32Window` and the embedder. -/
structure WindowEnv where
  /-- Result of `Win32Window::OnCreate()`. -/
  baseOnCreate : Bool
  /-- Result of `GetClientArea()`. -/
  clientArea : RECT
  /-- The controller `std::make_unique<FlutterViewController>(width, height, project_)`
  yields. -/
  newController : Int → Int → FlutterViewController
  /-- Result of `HandleTopLevelWindowProc`. -/
  handleTopLevelWindowProc : Message → Option LRESULT
  /-- Result of `Win32Window::MessageHandler`. -/
  baseMessageHandler : Message → LRESULT

/-- The state of a `FlutterWindow` that its member functions read and write. -/
structure FlutterWindow where
  flutter_controller_ : Option FlutterViewController
deriving DecidableEq, Repr

/-- Faults of an execution. -/
inductive Fault where
  /-- A member function was called through a null `engine()` pointer. -/
  | nullEngineDereference
deriving DecidableEq, Repr

/-- Embedding of `FlutterWindow::OnCreate()`: the return value, the window afterwards and the calls
made. -/
def FlutterWindow.OnCreate (env : WindowEnv) (self : FlutterWindow) :
    Bool × FlutterWindow × List Event :=
  if !env.baseOnCreate then
    (false, self, [Event.Win32Window_OnCreate])
  else
    let frame := env.clientArea
    let width := frame.right - frame.left
    let height := frame.bottom - frame.top
    let controller := env.newController width height
    let self1 : FlutterWindow := { self with flutter_controller_ := some controller }
    let construction := [Event.Win32Window_OnCreate, Event.GetClientArea,
      Event.FlutterViewController_new width height]
    match controller.engine, controller.view with
    | some engine, some view =>
      (true, self1, construction ++
        [Event.RegisterPlugins engine,
         Event.SetChildContent view.nativeWindow,
         Event.SetNextFrameCallback engine (some Callback.showWindow),
         Event.ForceRedraw])
    | _, _ => (false, self1, construction)

/-- Embedding of `FlutterWindow::OnDestroy()`: the window afterwards and the calls made, or the
fault. -/
def FlutterWindow.OnDestroy (self : FlutterWindow) :
    Except Fault (FlutterWindow × List Event) :=
  match self.flutter_controller_ with
  | some controller =>
    match controller.engine with
    | none => Except.error Fault.nullEngineDereference
    | some engine =>
      Except.ok ({ self with flutter_controller_ := none },
        [Event.SetNextFrameCallback engine none, Event.ReleaseController,
         Event.Win32Window_OnDestroy])
  | none => Except.ok (self, [Event.Win32Window_OnDestroy])

/-- The `switch (message)` of `MessageHandler`. -/
def FlutterWindow.hostMessage (self : FlutterWindow) (m : Message) : List Event :=
  if m.message = WM_FONTCHANGE then
    match self.flutter_controller_ with
    | some controller =>
      match controller.engine with
      | some engine => [Event.ReloadSystemFonts engine]
      | none => []
    | none => []
  else []

/-- Embedding of `FlutterWindow::MessageHandler(hwnd, message, wparam, lparam)`: the return value and
the calls made (the window itself is not modified). -/
def FlutterWindow.MessageHandler (env : WindowEnv) (self : FlutterWindow) (m : Message) :
    LRESULT × List Event :=
  match self.flutter_controller_ with
  | some _ =>
    match env.handleTopLevelWindowProc m with
    | some result => (result, [Event.HandleTopLevelWindowProc m])
    | none =>
      (env.baseMessageHandler m,
        [Event.HandleTopLevelWindowProc m] ++ self.hostMessage m ++
          [Event.Win32Window_MessageHandler m])
  | none =>
    (env.baseMessageHandler m, self.hostMessage m ++ [Event.Win32Window_MessageHandler m])

/-- A call of one of the three member functions. -/
inductive Call where
  | OnCreate (env : WindowEnv)
  | MessageHandler (env : WindowEnv) (m : Message)
  | OnDestroy

/-- Runs a sequence of calls on a window; stops at the first fault. -/
def FlutterWindow.run : FlutterWindow → List Call → Except Fault FlutterWindow
  | self, [] => Except.ok self
  | self, Call.OnCreate env :: calls => FlutterWindow.run (self.OnCreate env).2.1 calls
  | self, Call.MessageHandler _ _ :: calls => FlutterWindow.run self calls
  | self, Call.OnDestroy :: calls =>
    match self.OnDestroy with
    | Except.error fault => Except.error fault
    | Except.ok next => FlutterWindow.run next.1 calls

/-- Modelled from the spec: `Win32Window::Create` is not among the sources. Section 4.3
gives its contract: `OnCreate` is "called once after HWND creation", and "returning
false aborts window creation". `hwndCreated` is the outcome of creating the HWND and
`onCreate` the outcome of the `OnCreate` override. -/
def Win32Window.Create (hwndCreated : Bool) (onCreate : Bool × List Event) :
    Bool × List Event :=
  if hwndCreated then (onCreate.1, Event.CreateWindow :: onCreate.2)
  else (false, [Event.CreateWindow])

/-! ## main.cpp -/

/-- Embedding of `Win32Window::Point`. -/
structure Point where
  x : Int
  y : Int
deriving DecidableEq, Repr

/-- Embedding of `Win32Window::Size`. -/
structure Size where
  width : Int
  height : Int
deriving DecidableEq, Repr

/-- Calls made by `wWinMain`. A call of `GetMessage`, `TranslateMessage` or
`DispatchMessage` carries the number of the loop iteration; what a dispatched message
makes the window procedure do is not part of this trace. The call of `window.Create`
carries the calls made on the window during it. -/
inductive MainEvent where
  | CreateAndAttachConsole (calls : List ConsoleEvent)
  | CoInitializeEx
  | DartProject_new (path : String)
  | GetCommandLineArguments (calls : List ArgEvent)
  | set_dart_entrypoint_arguments (arguments : List (List Nat))
  | GetSystemMetrics (index : Nat)
  | Create (title : String) (origin : Point) (size : Size) (effects : List Event)
  | SetQuitOnClose (quit_on_close : Bool)
  | GetMessage (iteration : Nat)
  | TranslateMessage (iteration : Nat)
  | DispatchMessage (iteration : Nat)
  | CoUninitialize
deriving DecidableEq, Repr

/-- Outcomes of the OS calls of `wWinMain`. -/
structure MainEnv where
  console : ConsoleEnv
  /-- The `HRESULT` of `::CoInitializeEx`. -/
  coInitializeEx : Int
  /-- Result of `::CommandLineToArgvW(::GetCommandLineW(), &argc)`. -/
  tokenized : Option (List (List Nat))
  /-- The value of `std::string::max_size()`. -/
  max_size : Nat
  /-- Result of `::GetSystemMetrics(SM_CXSCREEN)`. -/
  screen_width : Int
  /-- Result of `::GetSystemMetrics(SM_CYSCREEN)`. -/
  screen_height : Int
  /-- Return value of the call of `::GetMessage` in loop iteration `i`. -/
  getMessage : Nat → Int

/-- The macro `FAILED(hr)`. -/
def FAILED (hr : Int) : Bool := decide (hr < 0)

/-- The exit code `EXIT_FAILURE`. -/
def EXIT_FAILURE : Int := 1

/-- The exit code `EXIT_SUCCESS`. -/
def EXIT_SUCCESS : Int := 0

/-- The metric index `SM_CXSCREEN`. -/
def SM_CXSCREEN : Nat := 0

/-- The metric index `SM_CYSCREEN`. -/
def SM_CYSCREEN : Nat := 1

/-- The loop `while (::GetMessage(&msg, nullptr, 0, 0)) { TranslateMessage; DispatchMessage }`
from iteration `i` on. `none` when the loop has not ended within `fuel` iterations. -/
def messageLoop (getMessage : Nat → Int) : Nat → Nat → Option (List MainEvent)
  | 0, _ => none
  | fuel + 1, i =>
    if getMessage i ≠ 0 then
      (messageLoop getMessage fuel (i + 1)).map (fun rest =>
        [MainEvent.GetMessage i, MainEvent.TranslateMessage i, MainEvent.DispatchMessage i]
          ++ rest)
    else some [MainEvent.GetMessage i]

/-- Embedding of `wWinMain`: the exit code and the calls made, `none` when the message loop has not
ended within `fuel` iterations. `create` is `window.Create`, giving its return value and
the calls it makes on the window. -/
def wWinMain (env : MainEnv) (create : String → Point → Size → Bool × List Event)
    (fuel : Nat) : Option (Int × List MainEvent) :=
  let console := CreateAndAttachConsole env.console false
  let startup := [MainEvent.CreateAndAttachConsole console.2, MainEvent.CoInitializeEx]
  if FAILED env.coInitializeEx then
    some (EXIT_FAILURE, startup)
  else
    let command_line_arguments := GetCommandLineArguments env.max_size env.tokenized
    let project := [MainEvent.DartProject_new "data",
      MainEvent.GetCommandLineArguments command_line_arguments.2] ++
      (if !command_line_arguments.1.isEmpty then
        [MainEvent.set_dart_entrypoint_arguments command_line_arguments.1]
      else [])
    let window_width : Int := 1280
    let window_height : Int := 720
    let origin : Point :=
      { x := Int.tdiv (env.screen_width - window_width) 2,
        y := Int.tdiv (env.screen_height - window_height) 2 }
    let size : Size := { width := window_width, height := window_height }
    let created := create "Trainova" origin size
    let creation := [MainEvent.GetSystemMetrics SM_CXSCREEN,
      MainEvent.GetSystemMetrics SM_CYSCREEN,
      MainEvent.Create "Trainova" origin size created.2]
    if !created.1 then
      some (EXIT_FAILURE, startup ++ project ++ creation ++ [MainEvent.CoUninitialize])
    else
      (messageLoop env.getMessage fuel 0).map (fun pump =>
        (EXIT_SUCCESS, startup ++ project ++ creation ++ [MainEvent.SetQuitOnClose true]
          ++ pump ++ [MainEvent.CoUninitialize]))

/-! ## Vocabulary of the statements -/

/-- The four set-up calls of `OnCreate`: `RegisterPlugins`, `SetChildContent`,
`SetNextFrameCallback` and `ForceRedraw`. -/
def Event.isSetupCall : Event → Bool
  | Event.RegisterPlugins _ => true
  | Event.SetChildContent _ => true
  | Event.SetNextFrameCallback _ _ => true
  | Event.ForceRedraw => true
  | _ => false

/-- Calls of `ReloadSystemFonts`. -/
def Event.isReloadSystemFonts : Event → Bool
  | Event.ReloadSystemFonts _ => true
  | _ => false

/-- Calls of `Win32Window::MessageHandler`. -/
def Event.isBaseMessageHandler : Event → Bool
  | Event.Win32Window_MessageHandler _ => true
  | _ => false

/-- Calls of `::GetMessage`. -/
def MainEvent.isGetMessage : MainEvent → Bool
  | MainEvent.GetMessage _ => true
  | _ => false

/-- Calls of `window.Create`. -/
def MainEvent.isCreate : MainEvent → Bool
  | MainEvent.Create _ _ _ _ => true
  | _ => false

/-- The controller `OnCreate` constructs: the embedder's answer for the client-area
width and height. -/
def WindowEnv.controller (env : WindowEnv) : FlutterViewController :=
  env.newController (env.clientArea.right - env.clientArea.left)
    (env.clientArea.bottom - env.clientArea.top)

/-- The origin `wWinMain` passes to `window.Create`. -/
def windowOrigin (env : MainEnv) : Point :=
  { x := Int.tdiv (env.screen_width - 1280) 2, y := Int.tdiv (env.screen_height - 720) 2 }

/-- The size `wWinMain` passes to `window.Create`. -/
def windowSize : Size := { width := 1280, height := 720 }

/-- The calls of `wWinMain` from `CoInitializeEx` on, up to the call of `window.Create`
(excluded). -/
def preparation (env : MainEnv) : List MainEvent :=
  [MainEvent.CoInitializeEx, MainEvent.DartProject_new "data",
    MainEvent.GetCommandLineArguments (GetCommandLineArguments env.max_size env.tokenized).2] ++
  (if !(GetCommandLineArguments env.max_size env.tokenized).1.isEmpty then
    [MainEvent.set_dart_entrypoint_arguments
      (GetCommandLineArguments env.max_size env.tokenized).1]
  else []) ++
  [MainEvent.GetSystemMetrics SM_CXSCREEN, MainEvent.GetSystemMetrics SM_CYSCREEN]

/-! ## Sample inputs -/

/-- Consecutive calls of `CreateAndAttachConsole`, one per environment of the list,
threading the static flag: the final flag and the calls made by all of them. -/
def consoleCalls : List ConsoleEnv → Bool → Bool × List ConsoleEvent
  | [], g_console_created => (g_console_created, [])
  | env :: envs, g_console_created =>
    let first := CreateAndAttachConsole env g_console_created
    let rest := consoleCalls envs first.1
    (rest.1, first.2 ++ rest.2)

/-- A debug build in which both `AttachConsole` and `AllocConsole` fail. -/
def noConsoleEnv : ConsoleEnv :=
  { debugBuild := true, isDebuggerPresent := false, attachConsole := false,
    allocConsole := false, stdoutRedirected := false, stderrRedirected := false }

/-- A debug build in which `AttachConsole` succeeds. -/
def parentConsoleEnv : ConsoleEnv :=
  { debugBuild := true, isDebuggerPresent := false, attachConsole := true,
    allocConsole := false, stdoutRedirected := false, stderrRedirected := false }

/-- A controller with an engine and a view. -/
def sampleController : FlutterViewController :=
  { engine := some { id := 1 }, view := some { nativeWindow := 77 } }

/-- A controller whose `engine()` is null. -/
def engineLessController : FlutterViewController :=
  { engine := none, view := some { nativeWindow := 77 } }

/-- An environment in which the base `OnCreate` succeeds, the client area is 1280 x 720,
the embedder yields `sampleController` and handles no message. -/
def sampleWindowEnv : WindowEnv :=
  { baseOnCreate := true
    clientArea := { left := 0, top := 0, right := 1280, bottom := 720 }
    newController := fun _ _ => sampleController
    handleTopLevelWindowProc := fun _ => none
    baseMessageHandler := fun _ => 0 }

/-- As `sampleWindowEnv`, but the controller comes without an engine. -/
def engineLessWindowEnv : WindowEnv :=
  { sampleWindowEnv with newController := fun _ _ => engineLessController }

/-- As `sampleWindowEnv`, but the embedder handles every message with result 5. -/
def handlingWindowEnv : WindowEnv :=
  { sampleWindowEnv with handleTopLevelWindowProc := fun _ => some 5 }

/-- A `WM_FONTCHANGE` message. -/
def fontChangeMessage : Message :=
  { hwnd := 3, message := WM_FONTCHANGE, wparam := 0, lparam := 0 }

/-- An environment of `wWinMain`: release build without debugger, COM initialises,
two tokens on the command line, a 1920 x 1080 screen, and the third `GetMessage`
returns 0. -/
def sampleMainEnv : MainEnv :=
  { console := { debugBuild := false, isDebuggerPresent := false, attachConsole := false,
                 allocConsole := false, stdoutRedirected := false, stderrRedirected := false }
    coInitializeEx := 0
    tokenized := some [[97], [98]]
    max_size := maxSize64
    screen_width := 1920
    screen_height := 1080
    getMessage := fun i => if i < 2 then 1 else 0 }

/-! # Theorems -/

/-- Claim C4: `OnCreate` returns false exactly when the base `OnCreate` returns false or the
constructed controller has a null engine or a null view; when the base `OnCreate` fails
the window is unchanged and no controller is constructed; and on every false return none
of `RegisterPlugins`, `SetChildContent`, `SetNextFrameCallback`, `ForceRedraw` was called. -/
theorem OnCreate_false_iff (env : WindowEnv) (self : FlutterWindow) :
    ((self.OnCreate env).1 = false ↔
      (env.baseOnCreate = false ∨ env.controller.engine = none ∨ env.controller.view = none)) ∧
    (env.baseOnCreate = false →
      (self.OnCreate env).2.1 = self ∧
      ∀ w h, Event.FlutterViewController_new w h ∉ (self.OnCreate env).2.2) ∧
    ((self.OnCreate env).1 = false →
      ∀ ev ∈ (self.OnCreate env).2.2, ev.isSetupCall = false) := by
  unfold FlutterWindow.OnCreate WindowEnv.controller
  cases hb : env.baseOnCreate
  · simp [Event.isSetupCall]
  · simp only [Bool.not_true, Bool.false_eq_true, if_false]
    cases he : (env.newController (env.clientArea.right - env.clientArea.left)
      (env.clientArea.bottom - env.clientArea.top)).engine <;>
    cases hv : (env.newController (env.clientArea.right - env.clientArea.left)
      (env.clientArea.bottom - env.clientArea.top)).view <;>
    simp [Event.isSetupCall]

/-- The message loop ends as soon as `GetMessage` returns 0: with more fuel than the
number of iterations before that, it yields its calls, which start with the `GetMessage`
of the first iteration and contain no `CoUninitialize`. -/
theorem messageLoop_terminates (getMessage : Nat → Int) :
    ∀ (fuel i k : Nat), getMessage (i + k) = 0 → k < fuel →
      ∃ pump, messageLoop getMessage fuel i = some pump ∧
        pump.head? = some (MainEvent.GetMessage i) ∧
        pump.count MainEvent.CoUninitialize = 0 := by
  intro fuel
  induction fuel with
  | zero => intro i k _ hk; omega
  | succ fuel ih =>
    intro i k hq hk
    unfold messageLoop
    by_cases hg : getMessage i = 0
    · simp [hg]
    · cases k with
      | zero => exact absurd hq hg
      | succ k =>
        obtain ⟨pump, hp, _, hc⟩ := ih (i + 1) k (by rw [← hq]; congr 1; omega) (by omega)
        refine ⟨[MainEvent.GetMessage i, MainEvent.TranslateMessage i,
          MainEvent.DispatchMessage i] ++ pump, by simp [hg, hp], by simp, ?_⟩
        simp [List.count_cons, hc]

/-- The calls before `window.Create` contain neither `CoUninitialize` nor `GetMessage`. -/
theorem preparation_count (env : MainEnv) :
    (preparation env).count MainEvent.CoUninitialize = 0 ∧
    (preparation env).countP MainEvent.isGetMessage = 0 := by
  unfold preparation
  constructor
  · simp [List.count_cons]
    split <;> simp
  · simp [List.countP_cons, MainEvent.isGetMessage]

/-- Result of `wWinMain` when `CoInitializeEx` fails. -/
theorem wWinMain_of_failed (env : MainEnv)
    (create : String → Point → Size → Bool × List Event) (fuel : Nat)
    (hf : FAILED env.coInitializeEx = true) :
    wWinMain env create fuel = some (EXIT_FAILURE,
      [MainEvent.CreateAndAttachConsole (CreateAndAttachConsole env.console false).2,
        MainEvent.CoInitializeEx]) := by
  simp [wWinMain, hf]

/-- Result of `wWinMain` when `window.Create` returns false. -/
theorem wWinMain_of_not_created (env : MainEnv)
    (create : String → Point → Size → Bool × List Event) (fuel : Nat)
    (hf : FAILED env.coInitializeEx = false)
    (hc : (create "Trainova" (windowOrigin env) windowSize).1 = false) :
    wWinMain env create fuel = some (EXIT_FAILURE,
      MainEvent.CreateAndAttachConsole (CreateAndAttachConsole env.console false).2 ::
        preparation env ++
      [MainEvent.Create "Trainova" (windowOrigin env) windowSize
        (create "Trainova" (windowOrigin env) windowSize).2] ++
      [MainEvent.CoUninitialize]) := by
  simp only [windowOrigin, windowSize] at hc
  simp [wWinMain, hf, hc, preparation, windowOrigin, windowSize]

/-- Result of `wWinMain` when `window.Create` returns true. -/
theorem wWinMain_of_created (env : MainEnv)
    (create : String → Point → Size → Bool × List Event) (fuel : Nat)
    (hf : FAILED env.coInitializeEx = false)
    (hc : (create "Trainova" (windowOrigin env) windowSize).1 = true) :
    wWinMain env create fuel = (messageLoop env.getMessage fuel 0).map (fun pump =>
      (EXIT_SUCCESS,
        MainEvent.CreateAndAttachConsole (CreateAndAttachConsole env.console false).2 ::
          preparation env ++
        [MainEvent.Create "Trainova" (windowOrigin env) windowSize
          (create "Trainova" (windowOrigin env) windowSize).2] ++
        [MainEvent.SetQuitOnClose true] ++ pump ++ [MainEvent.CoUninitialize])) := by
  simp only [windowOrigin, windowSize] at hc
  simp [wWinMain, hf, hc, preparation, windowOrigin, windowSize]

/-- Claim C5: `wWinMain` returns `EXIT_FAILURE` (non-zero) when `CoInitializeEx` fails,
without any `window.Create` or `CoUninitialize` call; it returns `EXIT_FAILURE` when
`window.Create` returns false and `EXIT_SUCCESS` (0) when the message loop ends, in both
cases after exactly one `CoUninitialize`, its last call; and whatever it returns, the exit
code is non-zero exactly when `CoInitializeEx` failed or `window.Create` returned false. -/
theorem wWinMain_exit_code (env : MainEnv)
    (create : String → Point → Size → Bool × List Event) (fuel : Nat) :
    (FAILED env.coInitializeEx = true →
      ∃ trace, wWinMain env create fuel = some (EXIT_FAILURE, trace) ∧
        trace.countP MainEvent.isCreate = 0 ∧
        trace.count MainEvent.CoUninitialize = 0) ∧
    (FAILED env.coInitializeEx = false →
      (create "Trainova" (windowOrigin env) windowSize).1 = false →
      ∃ trace, wWinMain env create fuel = some (EXIT_FAILURE, trace) ∧
        trace.count MainEvent.CoUninitialize = 1 ∧
        trace.getLast? = some MainEvent.CoUninitialize) ∧
    (FAILED env.coInitializeEx = false →
      (create "Trainova" (windowOrigin env) windowSize).1 = true →
      ∀ k, env.getMessage k = 0 → k < fuel →
      ∃ trace, wWinMain env create fuel = some (EXIT_SUCCESS, trace) ∧
        trace.count MainEvent.CoUninitialize = 1 ∧
        trace.getLast? = some MainEvent.CoUninitialize) ∧
    (∀ code trace, wWinMain env create fuel = some (code, trace) →
      (code ≠ 0 ↔
        (FAILED env.coInitializeEx = true ∨
          (create "Trainova" (windowOrigin env) windowSize).1 = false)) ∧
      (code = EXIT_SUCCESS ∨ code = EXIT_FAILURE)) ∧
    EXIT_FAILURE ≠ 0 ∧ EXIT_SUCCESS = 0 := by
  refine ⟨?_, ?_, ?_, ?_, by decide, rfl⟩
  · intro hf
    exact ⟨_, wWinMain_of_failed env create fuel hf, by simp [MainEvent.isCreate],
      by simp [List.count_cons]⟩
  · intro hf hc
    refine ⟨_, wWinMain_of_not_created env create fuel hf hc, ?_, List.getLast?_concat _⟩
    simp [List.count_cons, (preparation_count env).1]
  · intro hf hc k hq hk
    obtain ⟨pump, hp, _, hcount⟩ :=
      messageLoop_terminates env.getMessage fuel 0 k (by simpa using hq) hk
    refine ⟨_, by rw [wWinMain_of_created env create fuel hf hc, hp]; rfl, ?_,
      List.getLast?_concat _⟩
    simp [List.count_cons, (preparation_count env).1, hcount]
  · intro code trace h
    cases hf : FAILED env.coInitializeEx
    · cases hc : (create "Trainova" (windowOrigin env) windowSize).1
      · rw [wWinMain_of_not_created env create fuel hf hc] at h
        simp only [Option.some.injEq, Prod.mk.injEq] at h
        obtain ⟨h1, _⟩ := h
        subst h1
        simp [EXIT_FAILURE]
      · rw [wWinMain_of_created env create fuel hf hc] at h
        simp only [Option.map_eq_some', Prod.mk.injEq] at h
        obtain ⟨_, _, h1, _⟩ := h
        subst h1
        simp [EXIT_SUCCESS]
    · rw [wWinMain_of_failed env create fuel hf] at h
      simp only [Option.some.injEq, Prod.mk.injEq] at h
      obtain ⟨h1, _⟩ := h
      subst h1
      simp [EXIT_FAILURE]

/-- Instance of the exit-code theorem on the normal path: the third `GetMessage` returns 0. -/
theorem wWinMain_exit_code_witness :
    FAILED sampleMainEnv.coInitializeEx = false ∧
    ∃ trace, wWinMain sampleMainEnv (fun _ _ _ => (true, [])) 3 = some (EXIT_SUCCESS, trace) ∧
      trace.count MainEvent.CoUninitialize = 1 ∧
      trace.getLast? = some MainEvent.CoUninitialize :=
  ⟨rfl, (wWinMain_exit_code sampleMainEnv (fun _ _ _ => (true, [])) 3).2.2.1 rfl rfl 2 rfl
    (by decide)⟩

/-- Claim C1: when the base `OnCreate` succeeds and the constructed controller has an engine
and a view, `OnCreate` returns true and its set-up calls are, in this order,
`RegisterPlugins`, `SetChildContent` with the view's native window, `SetNextFrameCallback`
with the callback whose only effect is `Show`, and `ForceRedraw`; `Show` is not among the
calls of `OnCreate`; and in `wWinMain` all of them are made inside `window.Create`, before
which no `GetMessage` call occurs and after which the first one does. -/
theorem OnCreate_startup_order (env : WindowEnv) (self : FlutterWindow)
    (engine : FlutterEngine) (view : FlutterView) (menv : MainEnv) (fuel k : Nat)
    (hbase : env.baseOnCreate = true)
    (hengine : env.controller.engine = some engine)
    (hview : env.controller.view = some view)
    (hcom : FAILED menv.coInitializeEx = false)
    (hquit : menv.getMessage k = 0) (hfuel : k < fuel) :
    (self.OnCreate env).1 = true ∧
    (self.OnCreate env).2.2 =
      [Event.Win32Window_OnCreate, Event.GetClientArea,
       Event.FlutterViewController_new (env.clientArea.right - env.clientArea.left)
         (env.clientArea.bottom - env.clientArea.top),
       Event.RegisterPlugins engine,
       Event.SetChildContent view.nativeWindow,
       Event.SetNextFrameCallback engine (some Callback.showWindow),
       Event.ForceRedraw] ∧
    (self.OnCreate env).2.2.filter Event.isSetupCall =
      [Event.RegisterPlugins engine,
       Event.SetChildContent view.nativeWindow,
       Event.SetNextFrameCallback engine (some Callback.showWindow),
       Event.ForceRedraw] ∧
    Callback.showWindow.invoke = [Event.Show] ∧
    Event.Show ∉ (self.OnCreate env).2.2 ∧
    ∃ pre post,
      wWinMain menv
        (fun _ _ _ => Win32Window.Create true ((self.OnCreate env).1, (self.OnCreate env).2.2))
        fuel =
        some (EXIT_SUCCESS,
          pre ++ [MainEvent.Create "Trainova" (windowOrigin menv) windowSize
            (Event.CreateWindow :: (self.OnCreate env).2.2)] ++ post) ∧
      pre.countP MainEvent.isGetMessage = 0 ∧
      MainEvent.GetMessage 0 ∈ post := by
  have hrun : self.OnCreate env = (true, { self with flutter_controller_ := some env.controller },
      [Event.Win32Window_OnCreate, Event.GetClientArea,
       Event.FlutterViewController_new (env.clientArea.right - env.clientArea.left)
         (env.clientArea.bottom - env.clientArea.top),
       Event.RegisterPlugins engine,
       Event.SetChildContent view.nativeWindow,
       Event.SetNextFrameCallback engine (some Callback.showWindow),
       Event.ForceRedraw]) := by
    unfold WindowEnv.controller at hengine hview
    simp [FlutterWindow.OnCreate, hbase, hengine, hview, WindowEnv.controller]
  refine ⟨by rw [hrun], by rw [hrun], by rw [hrun]; rfl, rfl, by rw [hrun]; simp, ?_⟩
  obtain ⟨pump, hp, hhead, _⟩ :=
    messageLoop_terminates menv.getMessage fuel 0 k (by simpa using hquit) hfuel
  have hcreated : ((fun (_ : String) (_ : Point) (_ : Size) =>
      Win32Window.Create true ((self.OnCreate env).1, (self.OnCreate env).2.2))
        "Trainova" (windowOrigin menv) windowSize).1 = true := by
    simp [Win32Window.Create, hrun]
  refine ⟨MainEvent.CreateAndAttachConsole (CreateAndAttachConsole menv.console false).2 ::
      preparation menv, [MainEvent.SetQuitOnClose true] ++ pump ++ [MainEvent.CoUninitialize],
    ?_, ?_, ?_⟩
  · rw [wWinMain_of_created menv _ fuel hcom hcreated, hp]
    simp [Win32Window.Create]
  · simp [List.countP_cons, MainEvent.isGetMessage, (preparation_count menv).2]
  · cases pump with
    | nil => simp at hhead
    | cons ev pump =>
      simp only [List.head?_cons, Option.some.injEq] at hhead
      subst hhead
      simp

/-- Instance of the startup order at the sample window and process environments. -/
theorem OnCreate_startup_order_witness :
    (({ flutter_controller_ := none } : FlutterWindow).OnCreate sampleWindowEnv).1 = true ∧
    (({ flutter_controller_ := none } : FlutterWindow).OnCreate sampleWindowEnv).2.2 =
      [Event.Win32Window_OnCreate, Event.GetClientArea,
       Event.FlutterViewController_new 1280 720,
       Event.RegisterPlugins { id := 1 },
       Event.SetChildContent 77,
       Event.SetNextFrameCallback { id := 1 } (some Callback.showWindow),
       Event.ForceRedraw] :=
  have h := OnCreate_startup_order sampleWindowEnv { flutter_controller_ := none }
    { id := 1 } { nativeWindow := 77 } sampleMainEnv 3 2 rfl rfl rfl rfl rfl (by decide)
  ⟨h.1, h.2.1⟩

/-- Instance of the failure characterisation of `OnCreate` at a controller without engine. -/
theorem OnCreate_false_iff_witness :
    engineLessWindowEnv.controller.engine = none ∧
    (({ flutter_controller_ := none } : FlutterWindow).OnCreate engineLessWindowEnv).1 = false ∧
    ∀ ev ∈ (({ flutter_controller_ := none } : FlutterWindow).OnCreate engineLessWindowEnv).2.2,
      ev.isSetupCall = false :=
  have h := OnCreate_false_iff engineLessWindowEnv { flutter_controller_ := none }
  have hfalse := h.1.2 (Or.inr (Or.inl rfl))
  ⟨rfl, hfalse, h.2.2 hfalse⟩

/-- Teardown of a window whose controller has an engine, or which holds no controller:
the callback is cleared first, then the controller is released, then the base
`OnDestroy` is called; the controller is null afterwards. -/
theorem OnDestroy_teardown (self : FlutterWindow) :
    (∀ controller engine, self.flutter_controller_ = some controller →
      controller.engine = some engine →
      self.OnDestroy = Except.ok ({ flutter_controller_ := none },
        [Event.SetNextFrameCallback engine none, Event.ReleaseController,
         Event.Win32Window_OnDestroy])) ∧
    (self.flutter_controller_ = none →
      self.OnDestroy = Except.ok ({ flutter_controller_ := none },
        [Event.Win32Window_OnDestroy])) := by
  constructor
  · intro controller engine hc he
    simp [FlutterWindow.OnDestroy, hc, he]
  · intro hc
    cases self
    simp_all [FlutterWindow.OnDestroy]

/-- Claim C2: evaluation of `OnDestroy` on a window holding a controller whose `engine()` is
null, the state `OnCreate` leaves behind when its validation fails: the call of
`SetNextFrameCallback` goes through the null pointer, so the controller is not released
and the base `OnDestroy` is not reached. -/
theorem OnDestroy_null_engine_fault :
    ({ flutter_controller_ := some engineLessController } : FlutterWindow).OnDestroy =
      Except.error Fault.nullEngineDereference := rfl

/-- Claim C10: evaluation of the call sequence `OnCreate` (the controller comes without an
engine), `OnDestroy`: `OnCreate` returns false and keeps the controller, and `OnDestroy`
calls `SetNextFrameCallback` through the null engine pointer; `MessageHandler`, in the
same state, guards the engine and calls nothing on it. -/
theorem run_OnCreate_OnDestroy_fault :
    (({ flutter_controller_ := none } : FlutterWindow).OnCreate engineLessWindowEnv).1 = false ∧
    (({ flutter_controller_ := none } : FlutterWindow).OnCreate engineLessWindowEnv).2.1 =
      { flutter_controller_ := some engineLessController } ∧
    FlutterWindow.run { flutter_controller_ := none }
      [Call.OnCreate engineLessWindowEnv, Call.OnDestroy] =
      Except.error Fault.nullEngineDereference ∧
    (({ flutter_controller_ := some engineLessController } : FlutterWindow).MessageHandler
      sampleWindowEnv fontChangeMessage).2 =
      [Event.HandleTopLevelWindowProc fontChangeMessage,
       Event.Win32Window_MessageHandler fontChangeMessage] :=
  ⟨rfl, rfl, rfl, rfl⟩

/-- Claim C3, amended: a result of `HandleTopLevelWindowProc` is returned verbatim, without
any further call; in every other case the handler returns what the base handler returns,
the base handler being called exactly once and last; a `WM_FONTCHANGE` that the embedder
does not handle, delivered while a controller with an engine is held, makes exactly one
`ReloadSystemFonts` call before the base handler; in all other cases `ReloadSystemFonts`
is not called. -/
theorem MessageHandler_routing (env : WindowEnv) (self : FlutterWindow) (m : Message) :
    (∀ r, self.flutter_controller_ ≠ none → env.handleTopLevelWindowProc m = some r →
      self.MessageHandler env m = (r, [Event.HandleTopLevelWindowProc m])) ∧
    ((self.flutter_controller_ = none ∨ env.handleTopLevelWindowProc m = none) →
      (self.MessageHandler env m).1 = env.baseMessageHandler m ∧
      (self.MessageHandler env m).2.countP Event.isBaseMessageHandler = 1 ∧
      (self.MessageHandler env m).2.getLast? = some (Event.Win32Window_MessageHandler m)) ∧
    (∀ controller engine, self.flutter_controller_ = some controller →
      controller.engine = some engine → m.message = WM_FONTCHANGE →
      env.handleTopLevelWindowProc m = none →
      self.MessageHandler env m = (env.baseMessageHandler m,
        [Event.HandleTopLevelWindowProc m, Event.ReloadSystemFonts engine,
         Event.Win32Window_MessageHandler m])) ∧
    (¬ (m.message = WM_FONTCHANGE ∧
        (∃ controller engine, self.flutter_controller_ = some controller ∧
          controller.engine = some engine) ∧
        env.handleTopLevelWindowProc m = none) →
      (self.MessageHandler env m).2.countP Event.isReloadSystemFonts = 0) := by
  have hhost : (self.hostMessage m).countP Event.isBaseMessageHandler = 0 := by
    unfold FlutterWindow.hostMessage
    split
    · split
      · split <;> simp [Event.isBaseMessageHandler]
      · simp
    · simp
  refine ⟨?_, ?_, ?_, ?_⟩
  · intro r hc hr
    cases hfc : self.flutter_controller_ with
    | none => exact absurd hfc hc
    | some c => simp [FlutterWindow.MessageHandler, hfc, hr]
  · intro h
    cases hfc : self.flutter_controller_ with
    | none =>
      simp [FlutterWindow.MessageHandler, hfc, List.countP_cons, Event.isBaseMessageHandler,
        FlutterWindow.hostMessage]
    | some c =>
      have hr : env.handleTopLevelWindowProc m = none := by
        rcases h with h | h
        · rw [hfc] at h; cases h
        · exact h
      refine ⟨by simp [FlutterWindow.MessageHandler, hfc, hr], ?_, ?_⟩
      · simp [FlutterWindow.MessageHandler, hfc, hr, List.countP_cons,
          Event.isBaseMessageHandler, hhost]
      · have htrace : (self.MessageHandler env m).2 =
            (Event.HandleTopLevelWindowProc m :: self.hostMessage m) ++
              [Event.Win32Window_MessageHandler m] := by
          simp [FlutterWindow.MessageHandler, hfc, hr]
        rw [htrace]
        exact List.getLast?_concat _
  · intro c e hfc he hm hr
    simp [FlutterWindow.MessageHandler, FlutterWindow.hostMessage, hfc, he, hm, hr]
  · intro hnot
    cases hfc : self.flutter_controller_ with
    | none =>
      by_cases hm : m.message = WM_FONTCHANGE <;>
        simp [FlutterWindow.MessageHandler, FlutterWindow.hostMessage, hfc, hm,
          List.countP_cons, Event.isReloadSystemFonts]
    | some c =>
      cases hr : env.handleTopLevelWindowProc m with
      | some r =>
        simp [FlutterWindow.MessageHandler, hfc, hr, List.countP_cons,
          Event.isReloadSystemFonts]
      | none =>
        cases he : c.engine with
        | none =>
          by_cases hm : m.message = WM_FONTCHANGE <;>
            simp [FlutterWindow.MessageHandler, FlutterWindow.hostMessage, hfc, hr, he, hm,
              List.countP_cons, Event.isReloadSystemFonts]
        | some e =>
          have hm : m.message ≠ WM_FONTCHANGE :=
            fun hm => hnot ⟨hm, ⟨c, e, hfc, he⟩, hr⟩
          simp [FlutterWindow.MessageHandler, FlutterWindow.hostMessage, hfc, hr, he, hm,
            List.countP_cons, Event.isReloadSystemFonts]

/-- Instance of the routing theorem: an unhandled `WM_FONTCHANGE` with an engine held. -/
theorem MessageHandler_routing_witness :
    ({ flutter_controller_ := some sampleController } : FlutterWindow).MessageHandler
      sampleWindowEnv fontChangeMessage =
      (0, [Event.HandleTopLevelWindowProc fontChangeMessage,
        Event.ReloadSystemFonts { id := 1 },
        Event.Win32Window_MessageHandler fontChangeMessage]) :=
  (MessageHandler_routing sampleWindowEnv { flutter_controller_ := some sampleController }
    fontChangeMessage).2.2.1 sampleController { id := 1 } rfl rfl rfl rfl

/-- Counterexample to claim C3 as stated: a `WM_FONTCHANGE` delivered while a controller
with an engine is held, but handled by the embedder, causes no `ReloadSystemFonts` call
and does not reach the base handler. -/
theorem MessageHandler_handled_fontchange :
    ({ flutter_controller_ := some sampleController } : FlutterWindow).flutter_controller_ =
      some sampleController ∧
    sampleController.engine = some { id := 1 } ∧
    fontChangeMessage.message = WM_FONTCHANGE ∧
    ({ flutter_controller_ := some sampleController } : FlutterWindow).MessageHandler
      handlingWindowEnv fontChangeMessage =
      (5, [Event.HandleTopLevelWindowProc fontChangeMessage]) ∧
    (({ flutter_controller_ := some sampleController } : FlutterWindow).MessageHandler
      handlingWindowEnv fontChangeMessage).2.countP Event.isReloadSystemFonts = 0 ∧
    (({ flutter_controller_ := some sampleController } : FlutterWindow).MessageHandler
      handlingWindowEnv fontChangeMessage).2.countP Event.isBaseMessageHandler = 0 :=
  ⟨rfl, rfl, rfl, rfl, rfl, rfl⟩

/-- Once the flag is set, any number of calls leaves it set and makes no call. -/
theorem consoleCalls_of_created (envs : List ConsoleEnv) :
    consoleCalls envs true = (true, []) := by
  induction envs with
  | nil => rfl
  | cons env envs ih => simp [consoleCalls, CreateAndAttachConsole, ih]

/-- Claim C6, amended: if the first call does not find both `AttachConsole` and
`AllocConsole` failing (no console is wanted, or one of the two succeeds), the flag is set
afterwards, every later call changes nothing and makes no call, and all the calls
together make at most one `AttachConsole` and at most one `AllocConsole` call. -/
theorem CreateAndAttachConsole_idempotent_once_set (env : ConsoleEnv)
    (later : List ConsoleEnv)
    (h : (env.debugBuild = false ∧ env.isDebuggerPresent = false) ∨
      env.attachConsole = true ∨ env.allocConsole = true) :
    (CreateAndAttachConsole env false).1 = true ∧
    (∀ env2, CreateAndAttachConsole env2 (CreateAndAttachConsole env false).1 =
      ((CreateAndAttachConsole env false).1, [])) ∧
    consoleCalls later (CreateAndAttachConsole env false).1 = (true, []) ∧
    (consoleCalls (env :: later) false).2.count ConsoleEvent.AttachConsole ≤ 1 ∧
    (consoleCalls (env :: later) false).2.count ConsoleEvent.AllocConsole ≤ 1 := by
  have hflag : (CreateAndAttachConsole env false).1 = true := by
    unfold CreateAndAttachConsole
    rcases h with ⟨h1, h2⟩ | h | h
    · simp [h1, h2]
    · cases env.debugBuild <;> cases env.isDebuggerPresent <;> simp [h]
    · cases env.debugBuild <;> cases env.isDebuggerPresent <;> cases env.attachConsole <;>
        simp [h]
  refine ⟨hflag, ?_, ?_, ?_, ?_⟩
  · intro env2
    rw [hflag]
    simp [CreateAndAttachConsole]
  · rw [hflag]
    exact consoleCalls_of_created later
  · simp only [consoleCalls, hflag, consoleCalls_of_created, List.append_nil]
    unfold CreateAndAttachConsole redirectStreams
    cases env.debugBuild <;> cases env.isDebuggerPresent <;> cases env.attachConsole <;>
      cases env.allocConsole <;> cases env.stdoutRedirected <;>
      cases env.stderrRedirected <;> decide
  · simp only [consoleCalls, hflag, consoleCalls_of_created, List.append_nil]
    unfold CreateAndAttachConsole redirectStreams
    cases env.debugBuild <;> cases env.isDebuggerPresent <;> cases env.attachConsole <;>
      cases env.allocConsole <;> cases env.stdoutRedirected <;>
      cases env.stderrRedirected <;> decide

/-- Instance of the idempotence theorem: the first call attaches to the parent console. -/
theorem CreateAndAttachConsole_idempotent_once_set_witness :
    parentConsoleEnv.attachConsole = true ∧
    (CreateAndAttachConsole parentConsoleEnv false).1 = true ∧
    consoleCalls [noConsoleEnv, parentConsoleEnv]
      (CreateAndAttachConsole parentConsoleEnv false).1 = (true, []) :=
  have h := CreateAndAttachConsole_idempotent_once_set parentConsoleEnv
    [noConsoleEnv, parentConsoleEnv] (Or.inr (Or.inl rfl))
  ⟨rfl, h.1, h.2.2.1⟩

/-- Counterexample to claim C6 as stated: in a debug build where `AttachConsole` and
`AllocConsole` both fail, the flag stays unset and a second call attempts both again
(four attempts in two calls); a second call whose `AttachConsole` succeeds changes the
console state. -/
theorem CreateAndAttachConsole_retries_after_failure :
    CreateAndAttachConsole noConsoleEnv false =
      (false, [ConsoleEvent.AttachConsole, ConsoleEvent.AllocConsole]) ∧
    CreateAndAttachConsole noConsoleEnv (CreateAndAttachConsole noConsoleEnv false).1 =
      (false, [ConsoleEvent.AttachConsole, ConsoleEvent.AllocConsole]) ∧
    consoleAttempts (consoleCalls [noConsoleEnv, noConsoleEnv] false).2 = 4 ∧
    CreateAndAttachConsole parentConsoleEnv (CreateAndAttachConsole noConsoleEnv false).1 =
      (true, [ConsoleEvent.AttachConsole]) := by
  decide

/-- The argument loop started at index `i` appends the conversions of the tokens from
index `i` on, in order. -/
theorem pushArguments_eq (max_size : Nat) (argv : List (List Nat)) :
    ∀ (n i : Nat) (acc : List (List Nat)), argv.length - i = n →
      pushArguments max_size argv argv.length i acc =
        acc ++ (argv.drop i).map (fun t => (Utf8FromUtf16 max_size (some t)).1) := by
  intro n
  induction n with
  | zero =>
    intro i acc h
    unfold pushArguments
    have hi : ¬ i < argv.length := by omega
    simp [hi, List.drop_eq_nil_of_le (Nat.le_of_not_lt hi)]
  | succ n ih =>
    intro i acc h
    unfold pushArguments
    have hi : i < argv.length := by omega
    rw [if_pos hi, ih (i + 1) _ (by omega)]
    conv_rhs => rw [List.drop_eq_getElem_cons hi]
    simp only [List.getElem?_eq_getElem hi, List.map_cons, List.append_assoc,
      List.cons_append, List.nil_append]

/-- Claim C9: for tokens `t_0 .. t_(n-1)` the result has length `n - 1`, its `i`-th element
is `Utf8FromUtf16(t_(i+1))`, in the original order with the first token dropped, and
`LocalFree` is called exactly once; when the tokenizer returns null the result is empty
(and nothing is freed). -/
theorem GetCommandLineArguments_drops_first (max_size : Nat) (tokens : List (List Nat)) :
    (GetCommandLineArguments max_size (some tokens)).1 =
      (tokens.drop 1).map (fun t => (Utf8FromUtf16 max_size (some t)).1) ∧
    (GetCommandLineArguments max_size (some tokens)).1.length = tokens.length - 1 ∧
    (∀ i, i + 1 < tokens.length →
      (GetCommandLineArguments max_size (some tokens)).1[i]? =
        some (Utf8FromUtf16 max_size tokens[i + 1]?).1) ∧
    (GetCommandLineArguments max_size (some tokens)).2.count ArgEvent.LocalFree = 1 ∧
    GetCommandLineArguments max_size none =
      ([], [ArgEvent.GetCommandLineW, ArgEvent.CommandLineToArgvW]) := by
  have hargs : (GetCommandLineArguments max_size (some tokens)).1 =
      (tokens.drop 1).map (fun t => (Utf8FromUtf16 max_size (some t)).1) := by
    simp [GetCommandLineArguments, pushArguments_eq max_size tokens (tokens.length - 1) 1 [] rfl]
  refine ⟨hargs, by simp [hargs], ?_, by simp [GetCommandLineArguments, List.count_cons], rfl⟩
  intro i hi
  rw [hargs]
  simp [List.getElem?_map, List.getElem?_drop, Nat.add_comm 1 i, List.getElem?_eq_getElem hi]

/-- Instance of the argument theorem at a command line of three tokens. -/
theorem GetCommandLineArguments_drops_first_witness :
    (GetCommandLineArguments maxSize64 (some [[97], [104, 105], [233]])).1 =
      [[104, 105], [195, 169]] := by
  have h := (GetCommandLineArguments_drops_first maxSize64 [[97], [104, 105], [233]]).1
  rw [h]
  decide

/-- UTF-8 encoding distributes over concatenation. -/
theorem utf8Encode_append (s t : List Nat) :
    utf8Encode (s ++ t) = utf8Encode s ++ utf8Encode t := by
  induction s with
  | nil => rfl
  | cons c s ih => simp [utf8Encode, ih]

/-- A scalar value takes at least one byte, and four bytes from U+10000 on. -/
theorem utf8EncodeScalar_length (c : Nat) :
    1 ≤ (utf8EncodeScalar c).length ∧ (65536 ≤ c → (utf8EncodeScalar c).length = 4) := by
  unfold utf8EncodeScalar
  split
  · exact ⟨by simp, by omega⟩
  · split
    · exact ⟨by simp, by omega⟩
    · split
      · exact ⟨by simp, by omega⟩
      · exact ⟨by simp, by simp⟩

/-- Decoding a well-formed string followed by its terminating null. -/
theorem utf16Decode_append_zero (u : List Nat) :
    ∀ s, utf16Decode u = some s → utf16Decode (u ++ [0]) = some (s ++ [0]) := by
  induction u using utf16Decode.induct with
  | case1 => intro s h; simp [utf16Decode] at h; subst h; simp [utf16Decode]
  | case2 u hu => intro s h; simp [utf16Decode, hu] at h; subst h; simp [utf16Decode, hu]
  | case3 u hu => intro s h; simp [utf16Decode, hu] at h
  | case4 u l rest hu ih =>
    intro s h
    simp only [utf16Decode, hu, if_true, Option.map_eq_some'] at h
    obtain ⟨s1, h1, rfl⟩ := h
    have h2 := ih s1 h1
    simp only [List.cons_append] at h2 ⊢
    simp [utf16Decode, hu, h2]
  | case5 u l rest hu hp ih =>
    intro s h
    rw [utf16Decode, if_neg hu, if_pos hp, Option.map_eq_some'] at h
    obtain ⟨s1, h1, rfl⟩ := h
    have h2 := ih s1 h1
    simp only [List.cons_append]
    rw [utf16Decode, if_neg hu, if_pos hp, h2]
    rfl
  | case6 u l rest hu hp =>
    intro s h
    simp [utf16Decode, hu, hp] at h

/-- A well-formed UTF-16 string has at most as many units as its UTF-8 form has bytes. -/
theorem utf16Decode_length_le (u : List Nat) :
    ∀ s, utf16Decode u = some s → u.length ≤ (utf8Encode s).length := by
  induction u using utf16Decode.induct with
  | case1 => intro s _; simp
  | case2 u hu =>
    intro s h; simp [utf16Decode, hu] at h; subst h
    have := (utf8EncodeScalar_length u).1
    simp [utf8Encode]; omega
  | case3 u hu => intro s h; simp [utf16Decode, hu] at h
  | case4 u l rest hu ih =>
    intro s h
    simp only [utf16Decode, hu, if_true, Option.map_eq_some'] at h
    obtain ⟨s1, h1, rfl⟩ := h
    have h2 := ih s1 h1
    have := (utf8EncodeScalar_length u).1
    simp only [utf8Encode, List.length_append, List.length_cons] at h2 ⊢
    omega
  | case5 u l rest hu hp ih =>
    intro s h
    rw [utf16Decode, if_neg hu, if_pos hp, Option.map_eq_some'] at h
    obtain ⟨s1, h1, rfl⟩ := h
    have h2 := ih s1 h1
    have := (utf8EncodeScalar_length (65536 + (u - 55296) * 1024 + (l - 56320))).2 (by omega)
    simp only [utf8Encode, List.length_append, List.length_cons] at h2 ⊢
    omega
  | case6 u l rest hu hp =>
    intro s h
    simp [utf16Decode, hu, hp] at h

/-- The strict decoder accepts the UTF-16 encoding of every sequence of scalar values
and returns that sequence. -/
theorem utf16Decode_encode (s : List Nat) (hs : ∀ c ∈ s, isScalar c) :
    utf16Decode (utf16Encode s) = some s := by
  induction s with
  | nil => rfl
  | cons c s ih =>
    have hc : isScalar c := hs c (by simp)
    have ih1 := ih (fun d hd => hs d (by simp [hd]))
    unfold isScalar at hc
    by_cases hbmp : c < 65536
    · have hu : c < 55296 ∨ (57344 ≤ c ∧ c < 65536) := by omega
      simp only [utf16Encode, utf16EncodeScalar, hbmp, if_true, List.singleton_append]
      cases hrest : utf16Encode s with
      | nil =>
        rw [hrest] at ih1
        simp [utf16Decode] at ih1
        subst ih1
        simp [utf16Decode, hu]
      | cons l rest =>
        rw [hrest] at ih1
        simp [utf16Decode, hu, ih1]
    · have hu : ¬ (55296 + (c - 65536) / 1024 < 55296 ∨
          (57344 ≤ 55296 + (c - 65536) / 1024 ∧ 55296 + (c - 65536) / 1024 < 65536)) := by
        omega
      have hp : 55296 ≤ 55296 + (c - 65536) / 1024 ∧ 55296 + (c - 65536) / 1024 < 56320 ∧
          56320 ≤ 56320 + (c - 65536) % 1024 ∧ 56320 + (c - 65536) % 1024 < 57344 := by
        omega
      have henc : utf16Encode (c :: s) = (55296 + (c - 65536) / 1024) ::
          (56320 + (c - 65536) % 1024) :: utf16Encode s := by
        simp [utf16Encode, utf16EncodeScalar, hbmp]
      have hval : 65536 + (55296 + (c - 65536) / 1024 - 55296) * 1024 +
          (56320 + (c - 65536) % 1024 - 56320) = c := by omega
      rw [henc, utf16Decode, if_neg hu, if_pos hp, ih1]
      simp only [Option.map_some', hval]

/-- The characters of a null-terminated string contain no null. -/
theorem cstr_no_zero (w : List Nat) : 0 ∉ cstr w := by
  intro h
  have := List.mem_takeWhile_imp h
  simp at this

/-- The encoding of a non-zero scalar value has no zero byte. -/
theorem utf8EncodeScalar_no_zero (c : Nat) (hc : c ≠ 0) : 0 ∉ utf8EncodeScalar c := by
  unfold utf8EncodeScalar
  split
  · simpa using fun h => hc h.symm
  · split
    · simp only [List.mem_cons, List.mem_singleton, List.not_mem_nil, or_false, not_or]
      omega
    · split
      · simp only [List.mem_cons, List.mem_singleton, List.not_mem_nil, or_false, not_or]
        omega
      · simp only [List.mem_cons, List.mem_singleton, List.not_mem_nil, or_false, not_or]
        omega

/-- The encoding of a string without U+0000 has no zero byte. -/
theorem utf8Encode_no_zero (s : List Nat) (hs : 0 ∉ s) : 0 ∉ utf8Encode s := by
  induction s with
  | nil => simp [utf8Encode]
  | cons c s ih =>
    simp only [List.mem_cons, not_or] at hs
    simp only [utf8Encode, List.mem_append, not_or]
    exact ⟨utf8EncodeScalar_no_zero c (fun h => hs.1 h.symm), ih hs.2⟩

/-- Decoding units without a zero unit gives scalar values without U+0000. -/
theorem utf16Decode_no_zero (u : List Nat) :
    ∀ s, 0 ∉ u → utf16Decode u = some s → 0 ∉ s := by
  induction u using utf16Decode.induct with
  | case1 => intro s _ h; simp [utf16Decode] at h; subst h; simp
  | case2 u hu => intro s h0 h; simp [utf16Decode, hu] at h; subst h; exact h0
  | case3 u hu => intro s _ h; simp [utf16Decode, hu] at h
  | case4 u l rest hu ih =>
    intro s h0 h
    rw [utf16Decode, if_pos hu, Option.map_eq_some'] at h
    obtain ⟨s1, h1, rfl⟩ := h
    simp only [List.mem_cons, not_or] at h0 ⊢
    exact ⟨h0.1, by simpa using ih s1 (by simp [h0.2.1, h0.2.2]) h1⟩
  | case5 u l rest hu hp ih =>
    intro s h0 h
    rw [utf16Decode, if_neg hu, if_pos hp, Option.map_eq_some'] at h
    obtain ⟨s1, h1, rfl⟩ := h
    simp only [List.mem_cons, not_or] at h0 ⊢
    exact ⟨by omega, ih s1 h0.2.2 h1⟩
  | case6 u l rest hu hp =>
    intro s _ h
    simp [utf16Decode, hu, hp] at h

/-- Result of the conversion call when its input is well-formed UTF-16. -/
theorem WideCharToMultiByte_of_decoded (str : List Nat) (cch cb : Int) (s : List Nat)
    (h : (conversionInput str cch).bind utf16Decode = some s) :
    WideCharToMultiByte str cch cb =
      if 2147483648 ≤ (utf8Encode s).length then (0, [])
      else if cb = 0 then (((utf8Encode s).length : Int), [])
      else if cb < ((utf8Encode s).length : Int) then (0, [])
      else (((utf8Encode s).length : Int), utf8Encode s) := by
  simp only [WideCharToMultiByte, h]

/-- Result of the conversion call when its input is rejected. -/
theorem WideCharToMultiByte_of_invalid (str : List Nat) (cch cb : Int)
    (h : (conversionInput str cch).bind utf16Decode = none) :
    WideCharToMultiByte str cch cb = (0, []) := by
  simp only [WideCharToMultiByte, h]

/-- The length query on a well-formed string: the UTF-8 byte count plus one for the
terminating null, or failure when that does not fit an `int`. -/
theorem WideCharToMultiByte_query (w s : List Nat) (hdecode : utf16Decode (cstr w) = some s) :
    (WideCharToMultiByte w (-1) 0).1 =
      if 2147483648 ≤ (utf8Encode s).length + 1 then 0
      else ((utf8Encode s).length : Int) + 1 := by
  have h0 : (conversionInput w (-1)).bind utf16Decode = some (s ++ [0]) := by
    simp [conversionInput, utf16Decode_append_zero (cstr w) s hdecode]
  have hbytes : utf8Encode (s ++ [0]) = utf8Encode s ++ [0] := by
    rw [utf8Encode_append]; rfl
  rw [WideCharToMultiByte_of_decoded w (-1) 0 _ h0, hbytes]
  simp only [List.length_append, List.length_singleton, if_true]
  split <;> simp

/-- The second conversion call on a well-formed, non-empty string with a buffer of
exactly the UTF-8 byte count. -/
theorem WideCharToMultiByte_convert (w s : List Nat)
    (hdecode : utf16Decode (cstr w) = some s)
    (hpos : 0 < (utf8Encode s).length) (hsmall : (utf8Encode s).length < 2147483648) :
    WideCharToMultiByte w (wcslen w) (utf8Encode s).length =
      (((utf8Encode s).length : Int), utf8Encode s) := by
  have hlen : 0 < wcslen w := by
    unfold wcslen
    cases hc : cstr w with
    | nil =>
      rw [hc] at hdecode
      simp [utf16Decode] at hdecode
      subst hdecode
      simp [utf8Encode] at hpos
    | cons a l => simp
  have hne : ((wcslen w : Nat) : Int) ≠ -1 := by omega
  have hgt : (0 : Int) < ((wcslen w : Nat) : Int) := by omega
  have htake : (cstr w ++ [0]).take (wcslen w) = cstr w := by
    unfold wcslen
    simp
  have h0 : (conversionInput w (wcslen w)).bind utf16Decode = some s := by
    simp only [conversionInput, if_neg hne, if_pos hgt, Int.toNat_ofNat, htake]
    exact hdecode
  have hnz : ¬ (((utf8Encode s).length : Int) = 0) := by omega
  rw [WideCharToMultiByte_of_decoded w _ _ s h0, if_neg (Nat.not_le.mpr hsmall), if_neg hnz,
    if_neg (lt_irrefl _)]

/-- Claim C7: a null input gives the empty string; for a null-terminated string that decodes
to the Unicode string `s`, the OS length query returning the UTF-8 byte count of `s` plus
one, the result is exactly the canonical UTF-8 encoding of `s`, of length the OS-reported
byte count minus one, without any null byte, and empty when `s` is empty. `max_size` is at
least 2^31 - 1, as on every 32-bit and 64-bit target. -/
theorem Utf8FromUtf16_valid (max_size : Nat) (w s : List Nat)
    (hmax : maxSize32 ≤ max_size)
    (hdecode : utf16Decode (cstr w) = some s)
    (hquery : (WideCharToMultiByte w (-1) 0).1 = ((utf8Encode s).length : Int) + 1) :
    (Utf8FromUtf16 max_size none).1 = [] ∧
    (Utf8FromUtf16 max_size (some w)).1 = utf8Encode s ∧
    (((Utf8FromUtf16 max_size (some w)).1.length : Nat) : Int) =
      (WideCharToMultiByte w (-1) 0).1 - 1 ∧
    0 ∉ (Utf8FromUtf16 max_size (some w)).1 ∧
    (s = [] → (Utf8FromUtf16 max_size (some w)).1 = []) := by
  have hq := WideCharToMultiByte_query w s hdecode
  have hsmall : (utf8Encode s).length + 1 < 2147483648 := by
    by_contra hbig
    rw [if_pos (Nat.le_of_not_lt hbig)] at hq
    omega
  have hunits := utf16Decode_length_le (cstr w) s hdecode
  have hresult : (Utf8FromUtf16 max_size (some w)).1 = utf8Encode s := by
    have htarget : toUInt32 ((WideCharToMultiByte w (-1) 0).1 - 1) = (utf8Encode s).length := by
      rw [hquery]
      unfold toUInt32
      omega
    have hinput : toInt32 (wcslen w) = wcslen w := by
      unfold toInt32 wcslen
      omega
    have hcb : toInt32 ((utf8Encode s).length : Nat) = (utf8Encode s).length := by
      unfold toInt32
      omega
    simp only [Utf8FromUtf16, htarget, hinput, hcb]
    by_cases hzero : (utf8Encode s).length = 0
    · simp [hzero, List.length_eq_zero.mp hzero]
    · have hle : ¬ (utf8Encode s).length > max_size := by
        unfold maxSize32 at hmax
        omega
      rw [if_neg (by simp [hzero, hle]),
        WideCharToMultiByte_convert w s hdecode (Nat.pos_of_ne_zero hzero) (by omega)]
      have hnz : ¬ (((utf8Encode s).length : Int) = 0) := by omega
      simp [hnz]
  refine ⟨rfl, hresult, ?_, ?_, ?_⟩
  · rw [hresult, hquery]; omega
  · rw [hresult]
    exact utf8Encode_no_zero s (utf16Decode_no_zero (cstr w) s (cstr_no_zero w) hdecode)
  · intro hs
    rw [hresult, hs]
    rfl

/-- Instance of the conversion theorem at a string with a two-byte, a three-byte and a
surrogate-pair character. -/
theorem Utf8FromUtf16_valid_witness :
    utf16Decode (cstr [72, 233, 8364, 55357, 56832]) = some [72, 233, 8364, 128512] ∧
    (Utf8FromUtf16 maxSize64 (some [72, 233, 8364, 55357, 56832])).1 =
      utf8Encode [72, 233, 8364, 128512] ∧
    utf8Encode [72, 233, 8364, 128512] = [72, 195, 169, 226, 130, 172, 240, 159, 152, 128] :=
  ⟨by decide,
    (Utf8FromUtf16_valid maxSize64 [72, 233, 8364, 55357, 56832] [72, 233, 8364, 128512]
      (by decide) (by decide) (by decide)).2.1,
    by decide⟩

/-- When the length query fails (returns 0), `target_length` wraps to 2^32 - 1 and the
result is empty; the function returns at the comparison with `max_size` exactly when
`max_size < 2^32 - 1`, and otherwise resizes the buffer to 2^32 - 1 bytes and makes the
second conversion call, whose failure ends it. -/
theorem Utf8FromUtf16_query_failure (max_size : Nat) (w : List Nat)
    (hquery : (WideCharToMultiByte w (-1) 0).1 = 0) :
    (Utf8FromUtf16 max_size (some w)).1 = [] ∧
    (max_size < 4294967295 →
      (Utf8FromUtf16 max_size (some w)).2 = [ConvEvent.lengthQuery, ConvEvent.wcslen]) ∧
    (4294967295 ≤ max_size →
      (Utf8FromUtf16 max_size (some w)).2 =
        [ConvEvent.lengthQuery, ConvEvent.wcslen, ConvEvent.resize 4294967295,
         ConvEvent.convert (toInt32 (wcslen w)) (-1)]) := by
  have htarget : toUInt32 ((WideCharToMultiByte w (-1) 0).1 - 1) = 4294967295 := by
    rw [hquery]; decide
  have hcb : toInt32 ((4294967295 : Nat) : Int) = -1 := by decide
  have hconv : ∀ n : Int, (WideCharToMultiByte w n (-1)).1 = 0 := by
    intro n
    cases hinput : (conversionInput w n).bind utf16Decode with
    | none => rw [WideCharToMultiByte_of_invalid w n (-1) hinput]
    | some s =>
      rw [WideCharToMultiByte_of_decoded w n (-1) s hinput]
      have hneg : (-1 : Int) < ((utf8Encode s).length : Int) := by omega
      split
      · rfl
      · simp [hneg]
  simp only [Utf8FromUtf16, htarget, hcb]
  refine ⟨?_, ?_, ?_⟩
  · split
    · rfl
    · simp [hconv]
  · intro h
    rw [if_pos (Or.inr h)]
  · intro h
    rw [if_neg (by omega)]
    simp [hconv]

/-- Claim C8: evaluation of `Utf8FromUtf16` on a lone high surrogate with the `max_size` of a
64-bit target: the length query returns 0, `target_length` wraps to 2^32 - 1, the
comparison `target_length > max_size` is false, and the function resizes the buffer to
2^32 - 1 bytes and makes the second conversion call before returning the empty string. -/
theorem Utf8FromUtf16_lone_surrogate_64bit :
    (WideCharToMultiByte [55296] (-1) 0).1 = 0 ∧
    toUInt32 ((WideCharToMultiByte [55296] (-1) 0).1 - 1) = 4294967295 ∧
    ¬ (4294967295 > maxSize64) ∧
    Utf8FromUtf16 maxSize64 (some [55296]) =
      ([], [ConvEvent.lengthQuery, ConvEvent.wcslen, ConvEvent.resize 4294967295,
        ConvEvent.convert 1 (-1)]) := by
  decide

end Trainova
